import Mathlib

/-!
Verification development for the jugglingdb MySQL adapter (src/lib/mysql.js).

The JavaScript source is shallowly embedded: JS values relevant to the adapter
become the inductive `JsVal`, the value codec `MySQL.prototype.toDatabase`
becomes `toDatabase`, the filter compiler `buildWhere` becomes
`whereClause`/`buildWhere`, the schema differ `MySQL.prototype.alterTable`
becomes `alterDiff`, and the executor paths of `all` and `query` become
`allCallback` and `queryCall`.  In-place mutation performed by the JS code is
modelled by returning the post-state of the mutated value alongside the
result.  A JS exception is modelled by the `JsResult.threw` constructor and by
`Except.error` where it propagates.
-/

namespace MysqlAdapter

/-- Decimal digit character for `d % 10` (the modulus only keeps the argument in
range; callers always pass a digit). -/
def digitChar (d : Nat) : Char := Char.ofNat (48 + d % 10)

/-- Single-character string holding the decimal digit of `d`. -/
def digitStr (d : Nat) : String := String.mk [digitChar d]

/-- Decimal rendering of a natural number, fuel-based so that the kernel can
evaluate it; `natToString` supplies enough fuel. -/
def natToStringAux (fuel : Nat) (n : Nat) : String :=
  match fuel with
  | 0 => ""
  | f + 1 => if n < 10 then digitStr n else natToStringAux f (n / 10) ++ digitStr (n % 10)

/-- Decimal rendering of a natural number, as JS renders integral numbers. -/
def natToString (n : Nat) : String := natToStringAux (n + 1) n

/-- Decimal rendering of an integer, as JS renders integral numbers. -/
def intToString (n : Int) : String :=
  if n < 0 then "-" ++ natToString n.natAbs else natToString n.toNat

/-- ASCII upper-casing of one character, as `String.prototype.toUpperCase`
acts on the ASCII range used by MySQL type names. -/
def upperChar (c : Char) : Char :=
  if 97 ≤ c.toNat ∧ c.toNat ≤ 122 then Char.ofNat (c.toNat - 32) else c

/-- ASCII upper-casing of a string (`Type.toUpperCase()` in the source). -/
def toUpperStr (s : String) : String := String.mk (s.data.map upperChar)

/-- Comma-join of a list of strings, as `Array.prototype.join(',')` joins the
already-stringified elements. -/
def joinComma : List String → String
  | [] => ""
  | [s] => s
  | s :: rest => s ++ "," ++ joinComma rest

/-- The source's identifier escaping: `'\x60' + name.replace(/\./g, '\x60.\x60') + '\x60'`,
character-level replacement of each dot. -/
def replaceDots (s : String) : String :=
  String.join (s.data.map (fun c => if c = Char.ofNat 46 then "`.`" else String.mk [c]))

/-- `MySQL.prototype.escapeName`: wrap in backquotes, splitting on dots. -/
def escapeName (name : String) : String := "`" ++ replaceDots name ++ "`"

/-- UTC components of a JS `Date` as read by `getUTCFullYear` (year),
`getUTCMonth` (0-11), `getUTCDate`, `getUTCHours`, `getUTCMinutes`,
`getUTCSeconds`. -/
structure JsDate where
  year : Nat
  month : Nat
  day : Nat
  hour : Nat
  minute : Nat
  second : Nat
deriving DecidableEq, Repr

/-- The source's `fillZeros`: prefix one zero below ten. -/
def fillZeros (v : Nat) : String :=
  if v < 10 then "0" ++ natToString v else natToString v

/-- The source's `dateToMysql`: UTC components joined as
`YYYY-MM-DD HH:MM:SS`, month shifted by one. -/
def dateToMysql (val : JsDate) : String :=
  natToString val.year ++ "-" ++
    fillZeros (val.month + 1) ++ "-" ++
    fillZeros val.day ++ " " ++
    fillZeros val.hour ++ ":" ++
    fillZeros val.minute ++ ":" ++
    fillZeros val.second

/-- JS values the adapter manipulates: `vnull`/`vundefined` are `null` and
`undefined`, `vnan` is the number `NaN`, `vint` an integral number, `vstr` a
string, `vbool` a boolean, `vdate` a `Date` object, `varr` an `Array`, and
`vobj` a plain `Object` given as its ordered own enumerable properties. -/
inductive JsVal where
  | vnull
  | vundefined
  | vnan
  | vint (n : Int)
  | vstr (s : String)
  | vbool (b : Bool)
  | vdate (d : JsDate)
  | varr (xs : List JsVal)
  | vobj (fields : List (String × JsVal))

/-- JS truthiness (`if (val)`): `null`, `undefined`, `NaN`, `0`, the empty
string and `false` are falsy; objects, arrays and dates are truthy. -/
def jsTruthy : JsVal → Bool
  | .vnull => false
  | .vundefined => false
  | .vnan => false
  | .vint n => n != 0
  | .vstr s => s != ""
  | .vbool b => b
  | .vdate _ => true
  | .varr _ => true
  | .vobj _ => true

/-- Characters treated as whitespace by JS trimming and numeric conversion. -/
def isWsChar (c : Char) : Bool :=
  c = ' ' ∨ c = Char.ofNat 9 ∨ c = Char.ofNat 10 ∨ c = Char.ofNat 13 ∨ c = Char.ofNat 12

/-- Trim leading and trailing whitespace. -/
def trimWs (s : String) : String :=
  String.mk (((s.data.dropWhile isWsChar).reverse.dropWhile isWsChar).reverse)

/-- Parse an optionally signed decimal integer; `none` when any character is
not a digit.  Models the integral fragment of JS string-to-number conversion
(floats, hex and exponent forms are outside the values the adapter meets). -/
def parseIntStr (s : String) : Option Int :=
  let core : List Char → Option Int := fun cs =>
    if cs = [] then none
    else if cs.all (fun c => 48 ≤ c.toNat ∧ c.toNat ≤ 57) then
      some (Int.ofNat (cs.foldl (fun acc c => acc * 10 + (c.toNat - 48)) 0))
    else none
  match s.data with
  | '-' :: rest => (core rest).map (fun n => -n)
  | '+' :: rest => core rest
  | cs => core cs

/-- JS `Number(val)` conversion restricted to the adapter's value domain;
`none` is `NaN`.  `Date` and plain objects convert to `NaN` here (the source
never feeds them to a numeric property). -/
def jsToNumber : JsVal → Option Int
  | .vnull => some 0
  | .vundefined => none
  | .vnan => none
  | .vint n => some n
  | .vbool b => some (cond b 1 0)
  | .vstr s => if trimWs s = "" then some 0 else parseIntStr (trimWs s)
  | .vdate _ => none
  | .varr [] => some 0
  | .varr [x] =>
    match x with
    | .vint n => some n
    | .vnull => some 0
    | .vundefined => some 0
    | _ => none
  | .varr (_ :: _ :: _) => none
  | .vobj _ => none

/-- JS `String(val)` / string concatenation conversion, fuel-based for array
recursion (`Array.prototype.join(',')` renders `null`/`undefined` elements as
empty).  `jsToString` supplies enough fuel.  A `Date` renders through
`dateToMysql` as a stand-in for the host's long form, which no claim
inspects. -/
def jsToStringF (fuel : Nat) (v : JsVal) : String :=
  match v with
  | .vnull => "null"
  | .vundefined => "undefined"
  | .vnan => "NaN"
  | .vint n => intToString n
  | .vstr s => s
  | .vbool b => cond b "true" "false"
  | .vdate d => dateToMysql d
  | .vobj _ => "[object Object]"
  | .varr xs =>
    match fuel with
    | 0 => ""
    | f + 1 =>
      joinComma (xs.map (fun x =>
        match x with
        | .vnull => ""
        | .vundefined => ""
        | y => jsToStringF f y))

/-- Size measure used only to supply fuel. -/
def jsSizeF (fuel : Nat) (v : JsVal) : Nat :=
  match v with
  | .varr xs =>
    match fuel with
    | 0 => 1
    | f + 1 => 1 + (xs.map (jsSizeF f)).foldl (· + ·) 0
  | .vobj fs =>
    match fuel with
    | 0 => 1
    | f + 1 => 1 + (fs.map (fun kv => jsSizeF f kv.2)).foldl (· + ·) 0
  | _ => 1

/-- Nesting bound for a JS value, enough fuel for every recursion below. -/
def jsFuel (v : JsVal) : Nat := jsSizeF 64 v + 64

/-- JS `String(val)` conversion. -/
def jsToString (v : JsVal) : String := jsToStringF (jsFuel v) v

/-- One escaped character of a MySQL string literal: quotes, backslash and
control characters are neutralized. -/
def escChar (c : Char) : String :=
  if c = Char.ofNat 39 then "\\\x27"
  else if c = Char.ofNat 92 then "\\\\"
  else if c = Char.ofNat 34 then "\\\""
  else if c = Char.ofNat 10 then "\\n"
  else if c = Char.ofNat 13 then "\\r"
  else if c = Char.ofNat 9 then "\\t"
  else if c = Char.ofNat 8 then "\\b"
  else if c = Char.ofNat 0 then "\\0"
  else if c = Char.ofNat 26 then "\\Z"
  else String.mk [c]

/-- Escaped body of a MySQL string literal. -/
def escStr (s : String) : String := String.join (s.data.map escChar)

/-- Single-quoted escaped MySQL string literal. -/
def quoteEsc (s : String) : String := "\x27" ++ escStr s ++ "\x27"

/-- Modelled from the spec: the dialect string escaper `SqlString.escape` —
the file `lib/protocol/SqlString.js` is required by the source but is not
under src/.  Per the spec, escaping "must neutralize quote/backslash/control
characters per the target dialect's escaping rules"; numbers render bare,
`null` renders as the SQL null keyword, and every other value renders as a
single-quoted escaped string literal of its string form. -/
def sqlEscape : JsVal → String
  | .vnull => "NULL"
  | .vundefined => "NULL"
  | .vnan => "NaN"
  | .vint n => intToString n
  | .vbool b => cond b "true" "false"
  | .vdate d => "\x27" ++ dateToMysql d ++ "\x27"
  | .vstr s => quoteEsc s
  | .varr xs => quoteEsc (jsToString (.varr xs))
  | .vobj fs => quoteEsc (jsToString (.vobj fs))

/-- Per-field property descriptor as the adapter reads it: `type.name`, the
optional `limit`, the not-null marker (`allowNull === false || null === false`
in the source) and the optional single-column index descriptor. -/
structure IndexSpec where
  itype : String := ""
  ikind : String := ""
deriving DecidableEq, Repr

structure PropertyDef where
  typeName : String
  limit : Option Nat := none
  notNull : Bool := false
  index : Option IndexSpec := none
deriving DecidableEq, Repr

/-- Result of a JS function call: a returned value (a bare `return;` returns
`vundefined`) or a thrown exception. -/
inductive JsResult where
  | ret (v : JsVal)
  | threw (msg : String)

/-- Property read `obj[key]` on a plain object: first binding or `undefined`. -/
def objField (fields : List (String × JsVal)) (key : String) : JsVal :=
  match fields.lookup key with
  | some v => v
  | none => .vundefined

/-- Replace the value bound to `key` (models in-place mutation of the object
reached through that property; the embedding treats values as unaliased). -/
def setField (fields : List (String × JsVal)) (key : String) (v : JsVal) :
    List (String × JsVal) :=
  fields.map (fun kv => if kv.1 = key then (kv.1, v) else kv)

/-- Indexed read `val[i]`: throws on `null`/`undefined`, yields an element or
`undefined` on arrays, a one-character string on strings, the `"i"` property
on objects, `undefined` otherwise. -/
def jsAtE (v : JsVal) (i : Nat) : Except String JsVal :=
  match v with
  | .vnull => .error "TypeError: Cannot read properties of null"
  | .vundefined => .error "TypeError: Cannot read properties of undefined"
  | .varr xs => .ok (xs.getD i .vundefined)
  | .vstr s =>
    .ok (match s.data.drop i with
         | [] => .vundefined
         | c :: _ => .vstr (String.mk [c]))
  | .vobj fs => .ok (objField fs (natToString i))
  | _ => .ok .vundefined

/-- Post-state of a container after the element read at `i` was mutated in
place to `w` (no-op outside arrays/objects and out of range, matching JS). -/
def jsSetAt (v : JsVal) (i : Nat) (w : JsVal) : JsVal :=
  match v with
  | .varr xs => .varr (xs.set i w)
  | .vobj fs =>
    .vobj (if (fs.lookup (natToString i)).isSome then setField fs (natToString i) w else fs)
  | c => c

/-- `val.propertyIsEnumerable('length')`: throws on `null`/`undefined`; true
exactly for plain objects with an own `length` property (an array's `length`
is not enumerable). -/
def propEnumLength (v : JsVal) : Except String Bool :=
  match v with
  | .vnull => .error "TypeError: Cannot convert null to object"
  | .vundefined => .error "TypeError: Cannot convert undefined to object"
  | .vobj fs => .ok (fs.lookup "length").isSome
  | _ => .ok false

/-- `typeof val === 'object'` (true for objects, arrays, dates and `null`). -/
def typeofIsObject (v : JsVal) : Bool :=
  match v with
  | .vnull => true
  | .vobj _ => true
  | .varr _ => true
  | .vdate _ => true
  | _ => false

/-- `typeof val.length === 'number'`. -/
def lengthIsNumber (v : JsVal) : Bool :=
  match v with
  | .varr _ => true
  | .vstr _ => true
  | .vobj fs =>
    match fs.lookup "length" with
    | some (.vint _) => true
    | some .vnan => true
    | _ => false
  | _ => false

/-- Models the host `Date` constructor on non-`Date` inputs (`new Date(val)`),
which is external to the repository; no claim depends on its output. -/
def jsNewDate (_ : JsVal) : JsDate := ⟨1970, 0, 1, 0, 0, 0⟩

/-- The value used by the `Date` branch: the value itself when it has
`toUTCString` (a `Date`), otherwise `new Date(val)`. -/
def jsAsDate : JsVal → JsDate
  | .vdate d => d
  | v => jsNewDate v

/-- The tail of `toDatabase` after the `null`/`undefined`/operator-object
handling (`if (!prop) return val;` onwards): dispatch on the descriptor type.
JS would throw a `TypeError` reaching `val.toString()` with `null` or
`undefined`, modelled by `threw`. -/
def afterUnwrap (p : Option PropertyDef) (val : JsVal) : JsResult :=
  match p with
  | none => .ret val
  | some pd =>
    if pd.typeName = "Number" then
      .ret (match jsToNumber val with
            | some n => .vint n
            | none => .vnan)
    else if pd.typeName = "Date" then
      if jsTruthy val = false then .ret (.vstr "NULL")
      else .ret (.vstr ("\"" ++ dateToMysql (jsAsDate val) ++ "\""))
    else if pd.typeName = "Boolean" then
      .ret (.vint (if jsTruthy val then 1 else 0))
    else
      match val with
      | .vnull => .threw "TypeError: Cannot read properties of null"
      | .vundefined => .threw "TypeError: Cannot read properties of undefined"
      | v => .ret (.vstr (sqlEscape (.vstr (jsToString v))))

/-- `MySQL.prototype.toDatabase`, fuel-based (`toDatabase` supplies enough
fuel; only the `between` branch recurses).  Returns the JS result together
with the post-state of the argument: the `inq`/`nin` branch escapes array
elements in place before joining them, which mutates the caller's operand
array. -/
def toDatabaseF (fuel : Nat) (p : Option PropertyDef) (val : JsVal) : JsResult × JsVal :=
  match val with
  | .vnull => (.ret (.vstr "NULL"), .vnull)
  | .vundefined => (.ret .vundefined, .vundefined)
  | .vobj fields =>
    let opKey : String := ((fields.map Prod.fst).head?).getD "undefined"
    let operand : JsVal := objField fields opKey
    if opKey = "between" then
      match fuel with
      | 0 => (.threw "RangeError: Maximum call stack size exceeded", .vobj fields)
      | f + 1 =>
        match jsAtE operand 0 with
        | .error e => (.threw e, .vobj fields)
        | .ok a0 =>
          let r0 := toDatabaseF f p a0
          let op1 := jsSetAt operand 0 r0.2
          let post1 := JsVal.vobj (setField fields opKey op1)
          match r0.1 with
          | .threw e => (.threw e, post1)
          | .ret v0 =>
            match jsAtE op1 1 with
            | .error e => (.threw e, post1)
            | .ok a1 =>
              let r1 := toDatabaseF f p a1
              let op2 := jsSetAt op1 1 r1.2
              let post2 := JsVal.vobj (setField fields opKey op2)
              match r1.1 with
              | .threw e => (.threw e, post2)
              | .ret v1 =>
                (.ret (.vstr (jsToString v0 ++ " AND " ++ jsToString v1)), post2)
    else if opKey = "inq" ∨ opKey = "nin" then
      match propEnumLength operand with
      | .error e => (.threw e, .vobj fields)
      | .ok el =>
        if !el && typeofIsObject operand && lengthIsNumber operand then
          match operand with
          | .varr xs =>
            let xs2 := xs.map (fun x => JsVal.vstr (sqlEscape x))
            (.ret (.vstr (joinComma (xs2.map jsToString))),
             .vobj (setField fields opKey (.varr xs2)))
          | other => (.ret other, .vobj fields)
        else (.ret operand, .vobj fields)
    else
      (afterUnwrap p operand, .vobj fields)
  | v => (afterUnwrap p v, v)

/-- `MySQL.prototype.toDatabase` with adequate fuel. -/
def toDatabase (p : Option PropertyDef) (val : JsVal) : JsResult × JsVal :=
  toDatabaseF (jsFuel val) p val

/-- `val.length` as compared by `val.length == 0` in `buildWhere`: a number
for strings and arrays, absent (`undefined`, which is not loosely equal to 0)
otherwise. -/
def jsLen : JsVal → Option Nat
  | .vstr s => some s.data.length
  | .varr xs => some xs.length
  | _ => none

/-- The `val.length == 0` test of `buildWhere`. -/
def jsLenIsZero (v : JsVal) : Bool :=
  match jsLen v with
  | some 0 => true
  | _ => false

/-- True exactly for plain objects: `conds[key] && conds[key].constructor.name
=== 'Object'` (a plain object is always truthy). -/
def isVObj : JsVal → Bool
  | .vobj _ => true
  | _ => false

/-- First own property name of a condition value, `Object.keys(conds[key])[0]`
(the operator tag); `none` when the value is not a plain object or is empty. -/
def condTypeOf : JsVal → Option String
  | .vobj fs => (fs.map Prod.fst).head?
  | _ => none

/-- Operator text appended by the `switch (condType)` of `buildWhere`; the
switch has no default, so an unknown operator appends nothing. -/
def condOpText (condType : Option String) : String :=
  match condType with
  | some "gt" => " > "
  | some "gte" => " >= "
  | some "lt" => " < "
  | some "lte" => " <= "
  | some "between" => " BETWEEN "
  | some "inq" => " IN "
  | some "nin" => " NOT IN "
  | some "neq" => " != "
  | some "like" => " LIKE "
  | _ => ""

/-- One clause of `buildWhere` (the body of its `forEach`), for the condition
`key: cond` under the model's properties.  Returns the pushed clause string
together with the post-state of the condition value (toDatabase may mutate
it), or the propagated exception. -/
def whereClause (props : List (String × PropertyDef)) (key : String) (cond : JsVal) :
    Except String (String × JsVal) :=
  let keyEscaped := escapeName key
  match toDatabase (props.lookup key) cond with
  | (.threw e, _) => .error e
  | (.ret val, post) =>
    match cond with
    | .vnull => .ok (keyEscaped ++ " IS NULL", post)
    | .vundefined => .ok (keyEscaped ++ " IS NULL", post)
    | .vobj fs =>
      let condType := condTypeOf (.vobj fs)
      if (condType == some "inq" || condType == some "nin") && jsLenIsZero val then
        .ok (if condType == some "inq" then "0" else "1", post)
      else
        let base := if condType == some "custom" then "" else keyEscaped
        if condType == some "inq" || condType == some "nin" then
          .ok (base ++ condOpText condType ++ "(" ++ jsToString val ++ ")", post)
        else if condType == some "custom" then
          .ok (base ++ jsToString (objField fs "custom"), post)
        else
          .ok (base ++ condOpText condType ++ jsToString val, post)
    | _ => .ok (keyEscaped ++ " = " ++ jsToString val, post)

/-- The clause accumulation of `buildWhere` over the ordered conditions,
returning the pushed clauses and the post-state of the conditions map. -/
def buildWhereGo (props : List (String × PropertyDef)) :
    List (String × JsVal) → Except String (List String × List (String × JsVal))
  | [] => .ok ([], [])
  | (k, v) :: rest =>
    match whereClause props k v with
    | .error e => .error e
    | .ok (c, v2) =>
      match buildWhereGo props rest with
      | .error e => .error e
      | .ok (cs, rest2) => .ok (c :: cs, (k, v2) :: rest2)

/-- `buildWhere` of `MySQL.prototype.all`: clauses joined with AND behind
`WHERE`, the empty string when there are no conditions; paired with the
post-state of the conditions map. -/
def buildWhere (props : List (String × PropertyDef)) (conds : List (String × JsVal)) :
    Except String (String × List (String × JsVal)) :=
  match buildWhereGo props conds with
  | .error e => .error e
  | .ok (cs, conds2) =>
    if cs = [] then .ok ("", conds2)
    else .ok ("WHERE " ++ joinComma2 cs, conds2)
where
  /-- `cs.join(' AND ')`. -/
  joinComma2 : List String → String
    | [] => ""
    | [s] => s
    | s :: rest => s ++ " AND " ++ joinComma2 rest

/-- Split on runs of whitespace, `o.split(/\s+/)`: a token boundary is
emitted at the start of each whitespace run. -/
def splitWsList (cs : List Char) (cur : List Char) (inWs : Bool) : List String :=
  match cs with
  | [] => [String.mk cur.reverse]
  | c :: rest =>
    if isWsChar c then
      if inWs then splitWsList rest [] true
      else String.mk cur.reverse :: splitWsList rest [] true
    else splitWsList rest (c :: cur) false

def splitWs (s : String) : List String := splitWsList s.data [] false

/-- `buildOrderBy` of `MySQL.prototype.all`: a bare string becomes a single
token; each token is split on whitespace, one part is backquoted, two parts
render as column plus direction (later parts are dropped). -/
def buildOrderBy (order : JsVal) : String :=
  let toks : List String :=
    match order with
    | .vstr s => [s]
    | .varr xs => xs.map jsToString
    | v => [jsToString v]
  "ORDER BY " ++ joinCommaSp (toks.map (fun o =>
    match splitWs o with
    | [_] => "`" ++ o ++ "`"
    | t0 :: t1 :: _ => "`" ++ t0 ++ "` " ++ t1
    | [] => "`" ++ o ++ "`"))
where
  /-- `arr.join(', ')`. -/
  joinCommaSp : List String → String
    | [] => ""
    | [s] => s
    | s :: rest => s ++ ", " ++ joinCommaSp rest

/-- `buildLimit` of `MySQL.prototype.all`: `LIMIT skip, limit` when the
offset is truthy, else `LIMIT limit`. -/
def buildLimit (limit : Int) (offset : Int) : String :=
  "LIMIT " ++ (if offset != 0 then intToString offset ++ ", " ++ intToString limit
               else intToString limit)

/-- The query filter as `all` consumes it: `where`, `order`, `limit`, `skip`
and the `include` flag, each absent-or-falsy as `none`/`false`. -/
structure Filter where
  whereC : Option (List (String × JsVal)) := none
  order : Option JsVal := none
  limit : Option Int := none
  skip : Option Int := none
  includeC : Bool := false

/-- Modelled from the spec: `tableEscaped` lives in the host ORM's `BaseSQL`
(outside src/); per the spec, table identifiers pass through the same
identifier-escaping rule as field names. -/
def tableEscaped (model : String) : String := escapeName model

/-- The SQL text assembled by `MySQL.prototype.all` before querying (an
exception from `buildWhere` propagates). -/
def allSql (model : String) (props : List (String × PropertyDef)) (filter : Option Filter) :
    Except String String :=
  let base := "SELECT * FROM " ++ tableEscaped model
  match filter with
  | none => .ok base
  | some f =>
    let afterWhere :=
      match f.whereC with
      | none => Except.ok base
      | some conds =>
        match buildWhere props conds with
        | .error e => .error e
        | .ok (w, _) => .ok (base ++ " " ++ w)
    match afterWhere with
    | .error e => .error e
    | .ok s1 =>
      let s2 := match f.order with
                | none => s1
                | some o => s1 ++ " " ++ buildOrderBy o
      let s3 := match f.limit with
                | none => s2
                | some l => if l = 0 then s2 else s2 ++ " " ++ buildLimit l (f.skip.getD 0)
      .ok s3

/-- A raw result row from the driver. -/
abbrev Row : Type := List (String × JsVal)

/-- JS loose equality `val == true` as used by `fromDatabase`'s Boolean
conversion (both sides convert to numbers; containers are not met here). -/
def jsLooseEqTrue (v : JsVal) : Bool :=
  match jsToNumber v with
  | some 1 => true
  | _ => false

/-- Strip a trailing timezone annotation: `val.toString().replace(/GMT.*$/,
'GMT')` keeps everything before the first `GMT` and the marker itself. -/
def stripAfterGMT (s : String) : String :=
  String.mk (go s.data)
where
  go : List Char → List Char
    | [] => []
    | 'G' :: 'M' :: 'T' :: _ => ['G', 'M', 'T']
    | c :: rest => c :: go rest

/-- Models the host's date-string parser (`new Date(string)`), which is
external to the repository; no claim depends on its output. -/
def jsParseDate (_ : String) : JsDate := ⟨1970, 0, 1, 0, 0, 0⟩

/-- `MySQL.prototype.fromDatabase`: convert Date and Boolean columns of a raw
row, leave `null`/`undefined` and all other values untouched. -/
def fromDatabase (props : List (String × PropertyDef)) (row : Row) : Row :=
  row.map (fun kv =>
    match kv.2 with
    | .vnull => kv
    | .vundefined => kv
    | v =>
      match props.lookup kv.1 with
      | none => kv
      | some pd =>
        if pd.typeName = "Date" then
          (kv.1, .vdate (jsParseDate (stripAfterGMT (jsToString v))))
        else if pd.typeName = "Boolean" then
          (kv.1, .vbool (jsLooseEqTrue v))
        else kv)

/-- What the query callback of `MySQL.prototype.all` does with the driver's
outcome: on error, call back with the error and an empty array; on success,
map the rows through `fromDatabase` and either delegate to `include` or call
back with the objects. -/
inductive AllOutcome where
  | cb (err : Option String) (objs : List Row)
  | delegatedInclude (objs : List Row)

def allCallback (props : List (String × PropertyDef)) (filter : Option Filter)
    (err : Option String) (data : List Row) : AllOutcome :=
  match err with
  | some e => .cb (some e) []
  | none =>
    let objs := data.map (fromDatabase props)
    match filter with
    | some f => if f.includeC then .delegatedInclude objs else .cb none objs
    | none => .cb none objs

/-- Outcome of `MySQL.prototype.query`: a thrown error, the statement handed
to the connection, or the callback invoked with the pool error. -/
inductive QueryOutcome where
  | threw (msg : String)
  | ran (sql : String)
  | calledBack (err : String)
deriving DecidableEq

/-- `MySQL.prototype.query`: with a connection, a non-function callback makes
it throw before querying; with a pool error the callback is invoked with it
(calling a non-function implicitly raises a TypeError). -/
def queryCall (sql : String) (poolErr : Option String) (cbIsFunction : Bool) : QueryOutcome :=
  match poolErr with
  | none =>
    if cbIsFunction then .ran sql
    else .threw "callback should be a function"
  | some e =>
    if cbIsFunction then .calledBack e
    else .threw "TypeError: callback is not a function"

/-- Whether a query outcome is a raised error. -/
def queryRaises : QueryOutcome → Bool
  | .threw _ => true
  | _ => false

/-! ## Schema differ (`MySQL.prototype.alterTable`) -/

/-- A named composite index from `m.settings.indexes`: a raw comma-separated
column list plus optional `type` and `kind` (empty string models a falsy
field). -/
structure CompositeIndex where
  columns : String
  itype : String := ""
  ikind : String := ""
deriving DecidableEq, Repr

/-- The per-model metadata `alterTable` reads: the ordered property map
(falsy descriptors as `none`, filtered out of `propNames`) and the optional
ordered `settings.indexes` map. -/
structure ModelDef where
  properties : List (String × Option PropertyDef)
  settingsIndexes : Option (List (String × Option CompositeIndex)) := none
deriving DecidableEq, Repr

/-- One row of `SHOW FIELDS FROM`: `Field`, `Type`, `Null`. -/
structure LiveField where
  field : String
  typ : String
  nullSt : String
deriving DecidableEq, Repr

/-- One row of `SHOW INDEXES FROM`: `Key_name`, `Column_name`,
`Seq_in_index` (1-based). -/
structure LiveIndexRow where
  keyName : String
  columnName : String
  seqInIndex : Nat
deriving DecidableEq, Repr

/-- `p.limit || default`: a missing or zero (falsy) limit falls back. -/
def limVal (l : Option Nat) (dflt : Nat) : Nat :=
  match l with
  | some n => if n = 0 then dflt else n
  | none => dflt

/-- The source's `datatype` switch; the `default:` label falls through to the
String/JSON case, so unknown type names render as VARCHAR. -/
def datatype (p : PropertyDef) : String :=
  match p.typeName with
  | "Text" => "TEXT"
  | "Number" => "INT(" ++ natToString (limVal p.limit 11) ++ ")"
  | "Date" => "DATETIME"
  | "Boolean" => "TINYINT(1)"
  | "Point" => "POINT"
  | _ => "VARCHAR(" ++ natToString (limVal p.limit 255) ++ ")"

/-- `MySQL.prototype.propertySettingsSQL`: rendered type plus nullability. -/
def propertySettingsSQL (p : PropertyDef) : String :=
  datatype p ++ " " ++ (if p.notNull then "NOT NULL" else "NULL")

/-- The `changed` helper of `alterTable`: nullability flips or a
case-insensitive native-type mismatch. -/
def changed (pd : PropertyDef) (old : LiveField) : Bool :=
  if old.nullSt == "YES" && pd.notNull then true
  else if old.nullSt == "NO" && !pd.notNull then true
  else toUpperStr old.typ != datatype pd

/-- The truthy property descriptor for a name, when any
(`m.properties[name]` truthy). -/
def truthyProp (m : ModelDef) (name : String) : Option PropertyDef :=
  match m.properties.lookup name with
  | some (some pd) => some pd
  | _ => none

/-- The ordered truthy properties (`propNames` with their descriptors). -/
def truthyProps (m : ModelDef) : List (String × PropertyDef) :=
  m.properties.filterMap (fun kv => kv.2.map (fun pd => (kv.1, pd)))

/-- The ordered truthy composite indexes (`indexNames` with their
descriptors). -/
def idxList (m : ModelDef) : List (String × CompositeIndex) :=
  match m.settingsIndexes with
  | none => []
  | some l => l.filterMap (fun kv => kv.2.map (fun ci => (kv.1, ci)))

/-- `indexNames`. -/
def indexNames (m : ModelDef) : List String := (idxList m).map Prod.fst

/-- Scan for the live field matching a property: the `forEach` overwrites
`found`, so the last matching row wins. -/
def findField (fields : List LiveField) (name : String) : Option LiveField :=
  (fields.filter (fun f => f.field == name)).getLast?

/-- Grouped live indexes: for each `Key_name` in first-appearance order, the
column list assembled by `columns[Seq_in_index - 1] = Column_name` (holes
stay `none`; a zero sequence number would write a negative JS index, touching
no element). -/
abbrev AiMap : Type := List (String × List (Option String))

/-- `arr[i] = v` on a JS array, extending with holes as needed. -/
def setPad (l : List (Option String)) (i : Nat) (v : Option String) : List (Option String) :=
  (l ++ List.replicate (i + 1 - l.length) none).set i v

def aiInsertRow (ai : AiMap) (row : LiveIndexRow) : AiMap :=
  let upd : List (Option String) → List (Option String) := fun cols =>
    if row.seqInIndex = 0 then cols else setPad cols (row.seqInIndex - 1) (some row.columnName)
  match ai.lookup row.keyName with
  | some _ => ai.map (fun kv => if kv.1 = row.keyName then (kv.1, upd kv.2) else kv)
  | none => ai ++ [(row.keyName, upd [])]

def buildAi (rows : List LiveIndexRow) : AiMap := rows.foldl aiInsertRow []

/-- One ALTER fragment as pushed into `sql`; `renderFrag` recovers the exact
source string. -/
inductive Frag where
  | addColumn (name : String) (pd : PropertyDef)
  | changeColumn (name : String) (pd : PropertyDef)
  | dropColumn (name : String)
  | dropIndex (name : String)
  | addIndexSingle (name : String) (i : IndexSpec)
  | addIndexMulti (name : String) (ci : CompositeIndex)
deriving DecidableEq, Repr

/-- The exact string pushed by `alterTable` for each fragment.  For a
single-column index the `kind` assignment is commented out in the source, so
its kind is always empty and the second shape is taken. -/
def renderFrag : Frag → String
  | .addColumn n pd => "ADD COLUMN `" ++ n ++ "` " ++ propertySettingsSQL pd
  | .changeColumn n pd => "CHANGE COLUMN `" ++ n ++ "` `" ++ n ++ "` " ++ propertySettingsSQL pd
  | .dropColumn n => "DROP COLUMN `" ++ n ++ "`"
  | .dropIndex n => "DROP INDEX `" ++ n ++ "`"
  | .addIndexSingle n i =>
    let type := if i.itype != "" then "USING " ++ i.itype else ""
    "ADD " ++ "" ++ " INDEX `" ++ n ++ "` " ++ type ++ " (`" ++ n ++ "`) "
  | .addIndexMulti n ci =>
    let type := if ci.itype != "" then "USING " ++ ci.itype else ""
    let kind := ci.ikind
    if kind != "" && type != "" then
      "ADD " ++ kind ++ " INDEX `" ++ n ++ "` (" ++ ci.columns ++ ") " ++ type
    else
      "ADD " ++ kind ++ " INDEX " ++ type ++ " `" ++ n ++ "` (" ++ ci.columns ++ ")"

/-- Split a declared composite column list on `/,\s*/` (a comma plus the
whitespace run after it); `skipping` marks being inside that run. -/
def splitCommaWsList (cs : List Char) (cur : List Char) (skipping : Bool) : List String :=
  match cs with
  | [] => [String.mk cur.reverse]
  | c :: rest =>
    if skipping && isWsChar c then splitCommaWsList rest cur true
    else if c = ',' then String.mk cur.reverse :: splitCommaWsList rest [] true
    else splitCommaWsList rest (c :: cur) false

def splitCommaWs (s : String) : List String := splitCommaWsList s.data [] false

/-- The change/add-column pass of `alterTable`. -/
def diffColumns (m : ModelDef) (actualFields : Option (List LiveField)) : List Frag :=
  ((truthyProps m).filter (fun kv => kv.1 != "id")).filterMap (fun kv =>
    match actualFields with
    | none => some (.addColumn kv.1 kv.2)
    | some fs =>
      match findField fs kv.1 with
      | some f => if changed kv.2 f then some (.changeColumn kv.1 kv.2) else none
      | none => some (.addColumn kv.1 kv.2))

/-- The drop-columns pass: live fields other than `id` without a truthy
declared property are dropped. -/
def diffDropColumns (m : ModelDef) (actualFields : Option (List LiveField)) : List Frag :=
  match actualFields with
  | none => []
  | some fs =>
    fs.filterMap (fun f =>
      if f.field == "id" then none
      else if (truthyProp m f.field).isNone then some (.dropColumn f.field) else none)

/-- Positional comparison of the declared composite columns against the
grouped live columns (`orderMatched`); a hole or missing live position
mismatches. -/
def orderMatchedCols (declared : List String) (live : List (Option String)) : Bool :=
  (List.range declared.length).all (fun i =>
    match declared.get? i, live.getD i none with
    | some c, some lc => lc == c
    | _, _ => false)

/-- The remove-indexes pass over the snapshot of grouped names: `id` and
`PRIMARY` are skipped; a name is dropped outright when it is neither a
declared composite nor a truthy property, or when a truthy property of that
name has no index marker; otherwise a declared composite with a positional
order mismatch is dropped and removed from the grouped map (so that the add
pass recreates it). -/
def removeIndexesGo (m : ModelDef) (names : List String) (ai : AiMap) :
    List Frag × AiMap :=
  match names with
  | [] => ([], ai)
  | name :: rest =>
    if name == "id" || name == "PRIMARY" then removeIndexesGo m rest ai
    else
      let tp := truthyProp m name
      let inIdx := (indexNames m).contains name
      let condAB := !inIdx && tp.isNone
      let condCD := match tp with
                    | some pd => pd.index.isNone
                    | none => false
      if condAB || condCD then
        let (frs, ai2) := removeIndexesGo m rest ai
        (.dropIndex name :: frs, ai2)
      else
        let orderMatched :=
          if inIdx then
            match (idxList m).lookup name with
            | some ci =>
              orderMatchedCols (splitCommaWs ci.columns) ((ai.lookup name).getD [])
            | none => true
          else true
        if orderMatched then removeIndexesGo m rest ai
        else
          let ai2 := ai.filter (fun kv => kv.1 != name)
          let (frs, ai3) := removeIndexesGo m rest ai2
          (.dropIndex name :: frs, ai3)

/-- The add-single-column-indexes pass, against the grouped map after
removals. -/
def diffSingleIdx (m : ModelDef) (ai : AiMap) : List Frag :=
  (truthyProps m).filterMap (fun kv =>
    match kv.2.index with
    | none => none
    | some i =>
      if (ai.lookup kv.1).isSome then none else some (.addIndexSingle kv.1 i))

/-- The add-composite-indexes pass, against the grouped map after removals. -/
def diffMultiIdx (m : ModelDef) (ai : AiMap) : List Frag :=
  (idxList m).filterMap (fun kv =>
    if (ai.lookup kv.1).isSome then none else some (.addIndexMulti kv.1 kv.2))

/-- The pure diff core of `MySQL.prototype.alterTable`: the ordered fragment
list it pushes into `sql` (rendered by `renderFrag` and joined into one ALTER
TABLE statement; an empty list means `done()` is called with no alteration
needed). -/
def alterDiff (m : ModelDef) (actualFields : Option (List LiveField))
    (actualIndexes : Option (List LiveIndexRow)) : List Frag :=
  let ai := match actualIndexes with
            | none => []
            | some rows => buildAi rows
  let aiNames := ai.map Prod.fst
  let rem := removeIndexesGo m aiNames ai
  diffColumns m actualFields ++ diffDropColumns m actualFields ++
    rem.1 ++ diffSingleIdx m rem.2 ++ diffMultiIdx m rem.2

/-- Modelled from the spec: the database engine applying one emitted ALTER
fragment to the introspected schema (MySQL itself is outside the repository).
ADD/CHANGE/DROP COLUMN update the field rows (a dropped column also leaves
any index rows that referenced it); DROP INDEX removes the rows of that key
name; ADD INDEX inserts rows with 1-based sequence numbers, a composite one
taking its columns from the declared comma-separated list. -/
def applyFrag (st : List LiveField × List LiveIndexRow) (f : Frag) :
    List LiveField × List LiveIndexRow :=
  match f with
  | .addColumn n pd =>
    (st.1 ++ [⟨n, datatype pd, if pd.notNull then "NO" else "YES"⟩], st.2)
  | .changeColumn n pd =>
    (st.1.map (fun fl => if fl.field = n then ⟨n, datatype pd, if pd.notNull then "NO" else "YES"⟩ else fl), st.2)
  | .dropColumn n =>
    (st.1.filter (fun fl => fl.field != n), st.2.filter (fun r => r.columnName != n))
  | .dropIndex n => (st.1, st.2.filter (fun r => r.keyName != n))
  | .addIndexSingle n _ => (st.1, st.2 ++ [⟨n, n, 1⟩])
  | .addIndexMulti n ci =>
    (st.1, st.2 ++ (splitCommaWs ci.columns).enum.map (fun p => ⟨n, p.2, p.1 + 1⟩))

/-- Apply a fragment list in order. -/
def applyFrags (st : List LiveField × List LiveIndexRow) (fs : List Frag) :
    List LiveField × List LiveIndexRow :=
  fs.foldl applyFrag st

/-! ## Auxiliary definitions used by the claim statements -/

/-- Values that are plain scalars to `buildWhere`: neither `null`/`undefined`
nor a container (a plain object is an operator object, an array is spread by
string conversion). -/
def isPlainScalar : JsVal → Bool
  | .vint _ => true
  | .vstr _ => true
  | .vbool _ => true
  | .vdate _ => true
  | .vnan => true
  | _ => false

/-- Whether a value is a JS `Array`. -/
def isVArr : JsVal → Bool
  | .varr _ => true
  | _ => false

/-- The value returned by the codec tail (`afterUnwrap`) when it does not
throw. -/
def encodeResult (p : Option PropertyDef) (v : JsVal) : JsVal :=
  match afterUnwrap p v with
  | .ret r => r
  | .threw _ => .vundefined

/-- The SQL text the encoded value contributes to a clause (its JS string
conversion, as `+` concatenates it). -/
def encodedStr (props : List (String × PropertyDef)) (key : String) (v : JsVal) : String :=
  jsToString (encodeResult (props.lookup key) v)

/-- Exactly two zero-padded decimal digits, the spec's wording for date
components. -/
def pad2 (v : Nat) : String := String.mk [digitChar (v / 10), digitChar v]

/-- Written from the spec's words: "literal date-time string rendered in UTC
with zero-padded components (`YYYY-MM-DD HH:MM:SS`)", each of
month (shifted to 1-12), day, hour, minute and second as exactly two
zero-padded digits. -/
def specDateFormat (d : JsDate) : String :=
  natToString d.year ++ "-" ++ pad2 (d.month + 1) ++ "-" ++ pad2 d.day ++ " " ++
    pad2 d.hour ++ ":" ++ pad2 d.minute ++ ":" ++ pad2 d.second

/-- A Date-typed property descriptor. -/
def datePD : PropertyDef := { typeName := "Date" }

/-- Model for the idempotence failure: properties `id`, `x`, `a`, `b` (the
property `x` has no index marker) and a declared composite index also named
`x` over columns `a, b`. -/
def c1Model : ModelDef := {
  properties := [("id", some { typeName := "Number" }), ("x", some { typeName := "String" }),
                 ("a", some { typeName := "String" }), ("b", some { typeName := "String" })],
  settingsIndexes := some [("x", some { columns := "a, b" })] }

/-- Live columns exactly matching `c1Model`. -/
def c1Fields : List LiveField :=
  [⟨"id", "int(11)", "NO"⟩, ⟨"x", "varchar(255)", "YES"⟩,
   ⟨"a", "varchar(255)", "YES"⟩, ⟨"b", "varchar(255)", "YES"⟩]

/-- Live indexes: the primary key and the composite `x` over `(a, b)` in the
declared order. -/
def c1Rows : List LiveIndexRow :=
  [⟨"PRIMARY", "id", 1⟩, ⟨"x", "a", 1⟩, ⟨"x", "b", 2⟩]

/-- Model for the mismatched-composite failure: same shape as `c1Model`. -/
def c3Model : ModelDef := {
  properties := [("id", some { typeName := "Number" }), ("x", some { typeName := "String" }),
                 ("a", some { typeName := "String" }), ("b", some { typeName := "String" })],
  settingsIndexes := some [("x", some { columns := "a, b" })] }

def c3Fields : List LiveField :=
  [⟨"id", "int(11)", "NO"⟩, ⟨"x", "varchar(255)", "YES"⟩,
   ⟨"a", "varchar(255)", "YES"⟩, ⟨"b", "varchar(255)", "YES"⟩]

/-- Live indexes with the composite `x` in reversed column order `(b, a)`. -/
def c3Rows : List LiveIndexRow :=
  [⟨"PRIMARY", "id", 1⟩, ⟨"x", "b", 1⟩, ⟨"x", "a", 2⟩]

/-- True when a fragment is neither kind of ADD INDEX. -/
def notAddIndex : Frag → Bool
  | .addIndexSingle _ _ => false
  | .addIndexMulti _ _ => false
  | _ => true


/-! ## Helper lemmas -/

theorem string_length_mk (cs : List Char) : (String.mk cs).length = cs.length := rfl

theorem natToStringAux_length_pos (f n : Nat) : 0 < (natToStringAux (f + 1) n).length := by
  unfold natToStringAux
  split
  · simp [digitStr, string_length_mk]
  · simp [String.length_append, digitStr, string_length_mk]

theorem natToString_length_pos (n : Nat) : 0 < (natToString n).length :=
  natToStringAux_length_pos n n

theorem intToString_length_pos (n : Int) : 0 < (intToString n).length := by
  unfold intToString
  split
  · rw [String.length_append]
    have : (0 : Nat) < "-".length := by decide
    omega
  · exact natToString_length_pos _

theorem quoteEsc_length_pos (s : String) : 0 < (quoteEsc s).length := by
  unfold quoteEsc
  rw [String.length_append, String.length_append]
  have : (0 : Nat) < "\x27".length := by decide
  omega

theorem sqlEscape_length_pos (v : JsVal) : 0 < (sqlEscape v).length := by
  cases v with
  | vnull => decide
  | vundefined => decide
  | vnan => decide
  | vint n => exact intToString_length_pos n
  | vbool b => cases b <;> decide
  | vdate d =>
    show 0 < ("\x27" ++ dateToMysql d ++ "\x27").length
    rw [String.length_append, String.length_append]
    have : (0 : Nat) < "\x27".length := by decide
    omega
  | vstr s => exact quoteEsc_length_pos s
  | varr xs => exact quoteEsc_length_pos _
  | vobj fs => exact quoteEsc_length_pos _

theorem joinComma_length_ge (s : String) (rest : List String) :
    s.length ≤ (joinComma (s :: rest)).length := by
  cases rest with
  | nil => exact Nat.le_refl _
  | cons b u =>
    show s.length ≤ (s ++ "," ++ joinComma (b :: u)).length
    rw [String.length_append, String.length_append]
    omega

theorem jsLenIsZero_vstr_false (s : String) (h : s.length ≠ 0) :
    jsLenIsZero (.vstr s) = false := by
  unfold jsLenIsZero jsLen
  have h2 : s.data.length ≠ 0 := h
  cases hd : s.data.length with
  | zero => exact absurd hd h2
  | succ n => simp [hd]

theorem jsToString_vstr (s : String) : jsToString (.vstr s) = s := rfl

theorem joinComma_map_toString (xs : List JsVal) :
    joinComma ((xs.map (fun x => JsVal.vstr (sqlEscape x))).map jsToString)
      = joinComma (xs.map sqlEscape) := by
  induction xs with
  | nil => rfl
  | cons a t ih =>
    cases t with
    | nil => rfl
    | cons b u =>
      simp only [List.map_cons, joinComma] at ih ⊢
      rw [jsToString_vstr]
      exact congrArg _ ih

theorem joinComma_sqlEscape_length_pos (y : JsVal) (t : List JsVal) :
    (joinComma ((y :: t).map sqlEscape)).length ≠ 0 := by
  have h1 := sqlEscape_length_pos y
  have h2 := joinComma_length_ge (sqlEscape y) (t.map sqlEscape)
  simp only [List.map_cons]
  omega

theorem toDatabase_plainScalar (p : Option PropertyDef) (v : JsVal)
    (h : isPlainScalar v = true) : toDatabase p v = (afterUnwrap p v, v) := by
  cases v <;> first
    | rfl
    | simp [isPlainScalar] at h

theorem afterUnwrap_plainScalar_ret (p : Option PropertyDef) (v : JsVal)
    (h : isPlainScalar v = true) : afterUnwrap p v = .ret (encodeResult p v) := by
  unfold encodeResult
  cases hw : afterUnwrap p v with
  | ret r => rfl
  | threw m =>
    exfalso
    cases p with
    | none => simp [afterUnwrap] at hw
    | some pd =>
      unfold afterUnwrap at hw
      cases v <;> simp [isPlainScalar] at h <;>
        (repeat' split at hw) <;> simp_all

/-! ## Claim theorems -/

/-- Claim C2: for a non-empty `inq`/`nin` operand array the compiled clause
is the escaped field name, exactly one `IN` (resp. `NOT IN`), and the encoded
elements joined by commas inside parentheses; for an empty operand array the
clause is the constant `0` for `inq` and `1` for `nin`. -/
theorem c2_inq_nin_clause (props : List (String × PropertyDef)) (key : String)
    (xs : List JsVal) (hne : xs ≠ []) :
    (whereClause props key (.vobj [("inq", .varr xs)]) =
      .ok (escapeName key ++ " IN " ++ "(" ++ joinComma (xs.map sqlEscape) ++ ")",
           .vobj [("inq", .varr (xs.map (fun x => .vstr (sqlEscape x))))]) ∧
     whereClause props key (.vobj [("nin", .varr xs)]) =
      .ok (escapeName key ++ " NOT IN " ++ "(" ++ joinComma (xs.map sqlEscape) ++ ")",
           .vobj [("nin", .varr (xs.map (fun x => .vstr (sqlEscape x))))])) ∧
    (whereClause props key (.vobj [("inq", .varr ([] : List JsVal))]) =
      .ok ("0", .vobj [("inq", .varr ([] : List JsVal))]) ∧
     whereClause props key (.vobj [("nin", .varr ([] : List JsVal))]) =
      .ok ("1", .vobj [("nin", .varr ([] : List JsVal))])) := by
  obtain ⟨y, t, rfl⟩ : ∃ y yt, xs = y :: yt := by
    cases xs with
    | nil => exact absurd rfl hne
    | cons a b => exact ⟨a, b, rfl⟩
  refine ⟨⟨?_, ?_⟩, rfl, rfl⟩
  · have hres : whereClause props key (.vobj [("inq", .varr (y :: t))]) =
        (if jsLenIsZero
              (.vstr (joinComma (((y :: t).map (fun x => JsVal.vstr (sqlEscape x))).map jsToString))) then
          Except.ok ("0",
            JsVal.vobj [("inq", .varr ((y :: t).map (fun x => JsVal.vstr (sqlEscape x))))])
        else
          .ok (escapeName key ++ " IN " ++ "(" ++
               joinComma (((y :: t).map (fun x => JsVal.vstr (sqlEscape x))).map jsToString) ++ ")",
               .vobj [("inq", .varr ((y :: t).map (fun x => JsVal.vstr (sqlEscape x))))])) := rfl
    rw [hres, joinComma_map_toString,
        jsLenIsZero_vstr_false _ (joinComma_sqlEscape_length_pos y t)]
    simp
  · have hres : whereClause props key (.vobj [("nin", .varr (y :: t))]) =
        (if jsLenIsZero
              (.vstr (joinComma (((y :: t).map (fun x => JsVal.vstr (sqlEscape x))).map jsToString))) then
          Except.ok ("1",
            JsVal.vobj [("nin", .varr ((y :: t).map (fun x => JsVal.vstr (sqlEscape x))))])
        else
          .ok (escapeName key ++ " NOT IN " ++ "(" ++
               joinComma (((y :: t).map (fun x => JsVal.vstr (sqlEscape x))).map jsToString) ++ ")",
               .vobj [("nin", .varr ((y :: t).map (fun x => JsVal.vstr (sqlEscape x))))])) := rfl
    rw [hres, joinComma_map_toString,
        jsLenIsZero_vstr_false _ (joinComma_sqlEscape_length_pos y t)]
    simp

/-- Claim C2 witness at `key` = `name`, operand `[5, 'a']`. -/
theorem c2_witness :
    whereClause [] "name" (.vobj [("inq", .varr [.vint 5, .vstr "a"])]) =
      .ok ("`name` IN (5,\x27a\x27)",
           .vobj [("inq", .varr [.vstr "5", .vstr "\x27a\x27"])]) := by
  have h := (c2_inq_nin_clause [] "name" [.vint 5, .vstr "a"] (by simp)).1.1
  rw [h]
  rfl

/-- Claim C4, counterexample: compiling the filter `{name: {inq: [1]}}`
mutates it — afterwards the operand array holds the escaped string `"1"`
instead of the number `1`, so the filter is not left unchanged. -/
theorem c4_counterexample :
    buildWhere [] [("name", .vobj [("inq", .varr [.vint 1])])] =
      .ok ("WHERE `name` IN (1)", [("name", .vobj [("inq", .varr [.vstr "1"])])]) ∧
    [("name", JsVal.vobj [("inq", JsVal.varr [JsVal.vstr "1"])])] ≠
      [("name", JsVal.vobj [("inq", JsVal.varr [JsVal.vint 1])])] := by
  refine ⟨rfl, ?_⟩
  intro h
  simp at h

/-- Claim C4, amended: compilation can mutate the filter — an `inq`/`nin`
condition with an array operand has each element replaced in place by its
escaped SQL literal, while any condition value that is not a plain object
(hence not an operator object) is left unchanged by encoding. -/
theorem c4_amended (p : Option PropertyDef) (v : JsVal) (op : String) (xs : List JsVal)
    (hop : op = "inq" ∨ op = "nin") :
    (isVObj v = false → (toDatabase p v).2 = v) ∧
    (toDatabase p (.vobj [(op, .varr xs)])).2 =
      .vobj [(op, .varr (xs.map (fun x => .vstr (sqlEscape x))))] := by
  constructor
  · intro hv
    cases v <;> first
      | rfl
      | simp [isVObj] at hv
  · rcases hop with h | h <;> subst h <;> rfl

/-- Claim C4 witness: a scalar is left unchanged; `{inq: [1]}` has its
element escaped in place. -/
theorem c4_witness :
    (toDatabase none (.vint 3)).2 = .vint 3 ∧
    (toDatabase none (.vobj [("inq", .varr [.vint 1])])).2 =
      .vobj [("inq", .varr [.vstr "1"])] := by
  have h := c4_amended none (.vint 3) "inq" [.vint 1] (Or.inl rfl)
  exact ⟨h.1 rfl, h.2.trans rfl⟩

/-- Claim C5: a condition value of `null` or `undefined` compiles to
`` `f` IS NULL ``; an operator object `{gt: v}` with a plain scalar operand
compiles to `` `f` > <encoded v> ``; a plain scalar value compiles to
`` `f` = <encoded v> `` — the field name backquote-escaped each time. -/
theorem c5_null_gt_scalar (props : List (String × PropertyDef)) (key : String) (v : JsVal) :
    (whereClause props key .vnull = .ok (escapeName key ++ " IS NULL", .vnull)) ∧
    (whereClause props key .vundefined = .ok (escapeName key ++ " IS NULL", .vundefined)) ∧
    (isPlainScalar v = true →
      whereClause props key (.vobj [("gt", v)]) =
        .ok (escapeName key ++ " > " ++ encodedStr props key v, .vobj [("gt", v)])) ∧
    (isPlainScalar v = true →
      whereClause props key v =
        .ok (escapeName key ++ " = " ++ encodedStr props key v, v)) := by
  refine ⟨rfl, rfl, ?_, ?_⟩
  · intro h
    have ha := afterUnwrap_plainScalar_ret (props.lookup key) v h
    have hdb : toDatabase (props.lookup key) (.vobj [("gt", v)]) =
        (.ret (encodeResult (props.lookup key) v), .vobj [("gt", v)]) := by
      rw [show toDatabase (props.lookup key) (.vobj [("gt", v)]) =
          (afterUnwrap (props.lookup key) v, .vobj [("gt", v)]) from rfl, ha]
    unfold whereClause
    rw [hdb]
    rfl
  · intro h
    have ha := afterUnwrap_plainScalar_ret (props.lookup key) v h
    cases v with
    | vint n =>
      have hdb : toDatabase (props.lookup key) (.vint n) =
          (.ret (encodeResult (props.lookup key) (.vint n)), .vint n) := by
        rw [show toDatabase (props.lookup key) (.vint n) =
            (afterUnwrap (props.lookup key) (.vint n), .vint n) from rfl, ha]
      unfold whereClause
      rw [hdb]
      rfl
    | vstr s =>
      have hdb : toDatabase (props.lookup key) (.vstr s) =
          (.ret (encodeResult (props.lookup key) (.vstr s)), .vstr s) := by
        rw [show toDatabase (props.lookup key) (.vstr s) =
            (afterUnwrap (props.lookup key) (.vstr s), .vstr s) from rfl, ha]
      unfold whereClause
      rw [hdb]
      rfl
    | vbool b =>
      have hdb : toDatabase (props.lookup key) (.vbool b) =
          (.ret (encodeResult (props.lookup key) (.vbool b)), .vbool b) := by
        rw [show toDatabase (props.lookup key) (.vbool b) =
            (afterUnwrap (props.lookup key) (.vbool b), .vbool b) from rfl, ha]
      unfold whereClause
      rw [hdb]
      rfl
    | vdate d =>
      have hdb : toDatabase (props.lookup key) (.vdate d) =
          (.ret (encodeResult (props.lookup key) (.vdate d)), .vdate d) := by
        rw [show toDatabase (props.lookup key) (.vdate d) =
            (afterUnwrap (props.lookup key) (.vdate d), .vdate d) from rfl, ha]
      unfold whereClause
      rw [hdb]
      rfl
    | vnan =>
      have hdb : toDatabase (props.lookup key) .vnan =
          (.ret (encodeResult (props.lookup key) .vnan), .vnan) := by
        rw [show toDatabase (props.lookup key) .vnan =
            (afterUnwrap (props.lookup key) .vnan, .vnan) from rfl, ha]
      unfold whereClause
      rw [hdb]
      rfl
    | vnull => simp [isPlainScalar] at h
    | vundefined => simp [isPlainScalar] at h
    | varr xs => simp [isPlainScalar] at h
    | vobj fs => simp [isPlainScalar] at h

/-- Claim C5 witness: the spec's examples — `{age: {gt: 5}}` compiles to
`` `age` > 5 `` under a Number descriptor, `{name: null}` to
`` `name` IS NULL ``, and a plain scalar to an equality clause. -/
theorem c5_witness :
    whereClause [("age", { typeName := "Number" })] "age" (.vobj [("gt", .vint 5)]) =
      .ok ("`age` > 5", .vobj [("gt", .vint 5)]) ∧
    whereClause [] "name" .vnull = .ok ("`name` IS NULL", .vnull) ∧
    whereClause [("age", { typeName := "Number" })] "age" (.vint 5) =
      .ok ("`age` = 5", .vint 5) := by
  have h := c5_null_gt_scalar [("age", { typeName := "Number" })] "age" (.vint 5)
  have h2 := c5_null_gt_scalar [] "name" (.vint 0)
  exact ⟨(h.2.2.1 rfl).trans rfl, h2.1, (h.2.2.2 rfl).trans rfl⟩

/-- Claim C6, counterexample: encoding `undefined` under a Date descriptor
yields the omit signal (`undefined` is returned), not the SQL null literal,
although `undefined` is a falsy value. -/
theorem c6_counterexample :
    (toDatabase (some datePD) .vundefined).1 = .ret .vundefined ∧
    JsResult.ret JsVal.vundefined ≠ .ret (.vstr "NULL") := by
  refine ⟨rfl, ?_⟩
  intro h
  simp at h

/-- Claim C6, amended: under a Date descriptor a `Date` value encodes to the
double-quoted `YYYY-MM-DD HH:MM:SS` literal built from its UTC components
with two-digit zero-padded month/day/hour/minute/second (stated against
`specDateFormat`, written from the spec's words); any falsy value other than
`undefined` encodes to the SQL null literal, while `undefined` signals that
the field is omitted. -/
theorem c6_date_encoding (d : JsDate) (v : JsVal)
    (hm : d.month < 12) (hd : d.day < 100) (hh : d.hour < 100)
    (hmin : d.minute < 100) (hs : d.second < 100)
    (hv : jsTruthy v = false) (hvu : v ≠ .vundefined) :
    toDatabase (some datePD) (.vdate d) =
      (.ret (.vstr ("\"" ++ specDateFormat d ++ "\"")), .vdate d) ∧
    (toDatabase (some datePD) v).1 = .ret (.vstr "NULL") := by
  constructor
  · have hpad : ∀ x : Nat, x < 100 → fillZeros x = pad2 x := by decide
    have hfmt : dateToMysql d = specDateFormat d := by
      unfold dateToMysql specDateFormat
      rw [hpad (d.month + 1) (by omega), hpad d.day hd, hpad d.hour hh,
          hpad d.minute hmin, hpad d.second hs]
    have hstep : toDatabase (some datePD) (.vdate d) =
        (.ret (.vstr ("\"" ++ dateToMysql d ++ "\"")), .vdate d) := rfl
    rw [hstep, hfmt]
  · cases v with
    | vnull => rfl
    | vnan => rfl
    | vint n =>
      have hstep : (toDatabase (some datePD) (.vint n)).1 =
          (if jsTruthy (.vint n) = false then JsResult.ret (.vstr "NULL")
           else .ret (.vstr ("\"" ++ dateToMysql (jsAsDate (.vint n)) ++ "\""))) := rfl
      rw [hstep, hv]
      rfl
    | vstr s =>
      have hstep : (toDatabase (some datePD) (.vstr s)).1 =
          (if jsTruthy (.vstr s) = false then JsResult.ret (.vstr "NULL")
           else .ret (.vstr ("\"" ++ dateToMysql (jsAsDate (.vstr s)) ++ "\""))) := rfl
      rw [hstep, hv]
      rfl
    | vbool b =>
      have hb : b = false := hv
      subst hb
      rfl
    | vundefined => exact absurd rfl hvu
    | vdate d2 => simp [jsTruthy] at hv
    | varr xs => simp [jsTruthy] at hv
    | vobj fs => simp [jsTruthy] at hv

/-- Claim C6 witness at a concrete date and the falsy number `0`. -/
theorem c6_witness :
    toDatabase (some datePD) (.vdate ⟨2020, 0, 5, 7, 30, 9⟩) =
      (.ret (.vstr "\"2020-01-05 07:30:09\""), .vdate ⟨2020, 0, 5, 7, 30, 9⟩) ∧
    (toDatabase (some datePD) (.vint 0)).1 = .ret (.vstr "NULL") := by
  have h := c6_date_encoding ⟨2020, 0, 5, 7, 30, 9⟩ (.vint 0)
    (by decide) (by decide) (by decide) (by decide) (by decide) rfl (by simp)
  exact ⟨h.1.trans rfl, h.2⟩

/-- Claim C7: when query execution fails, the `all` callback receives the
unmodified error together with an empty result list, for every filter and
every raw data set. -/
theorem c7_all_error_empty (props : List (String × PropertyDef)) (filter : Option Filter)
    (e : String) (data : List Row) :
    allCallback props filter (some e) data = .cb (some e) [] := rfl

/-- Claim C8: invoking `query` without a function callback raises an error
for every SQL string and pool outcome, while with a function callback and no
pool error the statement runs and no error is raised. -/
theorem c8_query_callback_check (sql : String) (poolErr : Option String) :
    queryRaises (queryCall sql poolErr false) = true ∧
    queryCall sql none true = .ran sql ∧
    queryRaises (queryCall sql none true) = false := by
  refine ⟨?_, rfl, rfl⟩
  cases poolErr <;> rfl

/-- Claim C9: a value that is neither `null`, `undefined` nor a plain object
is returned by `toDatabase(null, v)` exactly as given — no quoting, escaping
or coercion — and the value is not mutated. -/
theorem c9_no_descriptor_verbatim (v : JsVal)
    (h1 : v ≠ .vnull) (h2 : v ≠ .vundefined) (h3 : isVObj v = false) :
    toDatabase none v = (.ret v, v) := by
  cases v with
  | vnull => exact absurd rfl h1
  | vundefined => exact absurd rfl h2
  | vobj fs => simp [isVObj] at h3
  | vnan => rfl
  | vint n => rfl
  | vstr s => rfl
  | vbool b => rfl
  | vdate d => rfl
  | varr xs => rfl

/-- Claim C9 witness at the number `7`. -/
theorem c9_witness : toDatabase none (.vint 7) = (.ret (.vint 7), .vint 7) :=
  c9_no_descriptor_verbatim (.vint 7) (by simp) (by simp) rfl

/-- Claim C10, counterexample: an `inq` operand of `null` is not array-like,
yet encoding does not return it verbatim — the guard's
`propertyIsEnumerable` access throws a TypeError instead. -/
theorem c10_counterexample :
    (toDatabase none (.vobj [("inq", .vnull)])).1 =
      .threw "TypeError: Cannot convert null to object" ∧
    (toDatabase none (.vobj [("inq", .vnull)])).1 ≠ .ret .vnull := by
  refine ⟨rfl, ?_⟩
  intro h
  rw [show (toDatabase none (.vobj [("inq", .vnull)])).1 =
      .threw "TypeError: Cannot convert null to object" from rfl] at h
  exact JsResult.noConfusion h

/-- Claim C10, amended: an `inq`/`nin` operand that is not an array and is
neither `null` nor `undefined` is returned verbatim with no per-element
escaping and no mutation (a `null`/`undefined` operand instead raises a
TypeError); only array operands get their elements escaped. -/
theorem c10_non_array_verbatim (p : Option PropertyDef) (op : String) (v : JsVal)
    (hop : op = "inq" ∨ op = "nin")
    (hn1 : v ≠ .vnull) (hn2 : v ≠ .vundefined) (harr : isVArr v = false) :
    toDatabase p (.vobj [(op, v)]) = (.ret v, .vobj [(op, v)]) := by
  have main : ∀ w : JsVal, w ≠ .vnull → w ≠ .vundefined → isVArr w = false →
      toDatabase p (.vobj [("inq", w)]) = (.ret w, .vobj [("inq", w)]) ∧
      toDatabase p (.vobj [("nin", w)]) = (.ret w, .vobj [("nin", w)]) := by
    intro w w1 w2 w3
    cases w with
    | vnull => exact absurd rfl w1
    | vundefined => exact absurd rfl w2
    | varr xs => simp [isVArr] at w3
    | vobj fs =>
      constructor
      · show (if ((!(fs.lookup "length").isSome && true) && lengthIsNumber (JsVal.vobj fs)) = true then
              ((JsResult.ret (JsVal.vobj fs)), JsVal.vobj [("inq", JsVal.vobj fs)])
            else ((JsResult.ret (JsVal.vobj fs)), JsVal.vobj [("inq", JsVal.vobj fs)]))
            = ((JsResult.ret (JsVal.vobj fs)), JsVal.vobj [("inq", JsVal.vobj fs)])
        exact ite_self _
      · show (if ((!(fs.lookup "length").isSome && true) && lengthIsNumber (JsVal.vobj fs)) = true then
              ((JsResult.ret (JsVal.vobj fs)), JsVal.vobj [("nin", JsVal.vobj fs)])
            else ((JsResult.ret (JsVal.vobj fs)), JsVal.vobj [("nin", JsVal.vobj fs)]))
            = ((JsResult.ret (JsVal.vobj fs)), JsVal.vobj [("nin", JsVal.vobj fs)])
        exact ite_self _
    | vnan => exact ⟨rfl, rfl⟩
    | vint n => exact ⟨rfl, rfl⟩
    | vstr s => exact ⟨rfl, rfl⟩
    | vbool b => exact ⟨rfl, rfl⟩
    | vdate d => exact ⟨rfl, rfl⟩
  rcases hop with h | h <;> subst h
  · exact (main v hn1 hn2 harr).1
  · exact (main v hn1 hn2 harr).2

/-- Claim C10 witness: a string operand of `nin` comes back verbatim. -/
theorem c10_witness :
    toDatabase none (.vobj [("nin", .vstr "abc")]) =
      (.ret (.vstr "abc"), .vobj [("nin", .vstr "abc")]) :=
  c10_non_array_verbatim none "nin" (.vstr "abc") (Or.inr rfl) (by simp) (by simp) rfl

/-- Claim C1: the schema diff is not idempotent.  With the model `c1Model`
(property `x` without an index marker and a declared composite index also
named `x`) and a live schema already matching it, the first diff emits only
`DROP INDEX x`; applying that fragment and re-running the diff emits
`ADD INDEX x (a, b)` — a non-empty fragment list — so applying the ALTER and
re-diffing does not reach an empty diff (the two runs oscillate). -/
theorem c1_not_idempotent :
    alterDiff c1Model (some c1Fields) (some c1Rows) = [Frag.dropIndex "x"] ∧
    alterDiff c1Model
      (some (applyFrags (c1Fields, c1Rows) (alterDiff c1Model (some c1Fields) (some c1Rows))).1)
      (some (applyFrags (c1Fields, c1Rows) (alterDiff c1Model (some c1Fields) (some c1Rows))).2)
      = [Frag.addIndexMulti "x" ⟨"a, b", "", ""⟩] ∧
    [Frag.addIndexMulti "x" ⟨"a, b", "", ""⟩] ≠ ([] : List Frag) := by
  refine ⟨rfl, rfl, ?_⟩
  intro h
  simp at h

/-- Claim C3: with the composite index `x` declared over `(a, b)` while the
live index `x` has the reversed order `(b, a)`, and a property also named `x`
without an index marker, the diff emits the `DROP INDEX` fragment but no
`ADD INDEX` fragment at all — the index is dropped without being re-added,
contradicting the claim that both fragments are emitted. -/
theorem c3_mismatch_drop_without_readd :
    alterDiff c3Model (some c3Fields) (some c3Rows) = [Frag.dropIndex "x"] ∧
    (alterDiff c3Model (some c3Fields) (some c3Rows)).all notAddIndex = true := ⟨rfl, rfl⟩

end MysqlAdapter
